import Mathlib

/-!
Shallow embedding of `src/download_data.py` (the bulk acquisition pipeline):
`download_chunk`, `process_day` (skip check, querying, exporting, listing,
downloading, merging via `process_chunk`, cleaning up, and the exception
handler writing `data/failed_dates.txt`), and the scheduler loop of
`download_gencast_2024`.

Files are modelled as lists of lines; the local filesystem, the day's
remote materialized table and its exported shard objects form a `World`;
remote calls are recorded in a trace.  Fault injection (which remote
operations fail, what each exported shard contains) is a `DayEnv`.
-/

set_option maxRecDepth 4000

namespace DownloadData

/-- Does the second character list start with the first? -/
def charListStarts : List Char → List Char → Bool
  | [], _ => true
  | _ :: _, [] => false
  | a :: as, b :: bs => (a.toNat == b.toNat) && charListStarts as bs

/-- `s.startswith(pre)` over the underlying character list. -/
def strStarts (s pre : String) : Bool := charListStarts pre.data s.data

/-- `s.endswith(suf)` over the underlying character list. -/
def strEnds (s suf : String) : Bool := charListStarts suf.data.reverse s.data.reverse

/-- Lexicographic comparison of character lists by code point, the order
Python's `sorted` uses on strings. -/
def charListLe : List Char → List Char → Bool
  | [], _ => true
  | _ :: _, [] => false
  | a :: as, b :: bs =>
    if a.toNat < b.toNat then true
    else if b.toNat < a.toNat then false
    else charListLe as bs

/-- Lexicographic string comparison by code point. -/
def strLe (a b : String) : Bool := charListLe a.data b.data

/-- The sorting relation of line 171 (`sorted` on file-name strings). -/
abbrev strOrder (a b : String) : Prop := strLe a b = true

/-- `final_file = f"data/gencast_{date_str}.csv"` (line 55). -/
def finalFile (d : String) : String := "data/gencast_" ++ d ++ ".csv"

/-- `temp_dir = f"data/temp_{date_str}"` (line 56). -/
def tempDir (d : String) : String := "data/temp_" ++ d

/-- `table_name = f"gencast_{date_str}"` (line 54). -/
def tableName (d : String) : String := "gencast_" ++ d

/-- `os.path.basename` on a slash-separated blob name (line 40): the
characters after the last slash. -/
def basename (s : String) : String :=
  String.mk ((s.data.reverse.takeWhile (fun c => !(c.toNat == 47))).reverse)

/-- The remote calls `process_day` can issue, for trace instrumentation. -/
inductive RemoteOp where
  | submitQuery
  | exportTable
  | listBlobs
  | downloadBlob (name : String)
  | deleteTable
  | deleteBlob (name : String)
deriving Repr, DecidableEq

/-- The three strings `process_day` can return (lines 72, 260, 273). -/
inductive Outcome where
  | success
  | skipped
  | failed
deriving Repr, DecidableEq

/-- The pipeline stage in which an exception was raised. -/
inductive Stage where
  | querying
  | exporting
  | downloading
  | merging
  | cleaningUp
deriving Repr, DecidableEq

/-- Local filesystem (path to list of lines), the day's remote table,
its exported shard objects, and the `data/failed_dates.txt` log. -/
structure World where
  localFiles : List (String × List String)
  tableExists : Bool
  shardObjects : List String
  failureLog : List String
deriving Repr, DecidableEq

/-- Read a local file. -/
def lookupFile (w : World) (p : String) : Option (List String) :=
  (w.localFiles.find? (fun e => e.1 == p)).map (fun e => e.2)

/-- Create or truncate-and-write a local file. -/
def writeFile (w : World) (p : String) (c : List String) : World :=
  { w with localFiles := (p, c) :: w.localFiles.filter (fun e => !(e.1 == p)) }

/-- `shutil.rmtree(temp_dir)` (line 237): drop every file under the directory. -/
def rmtree (w : World) (dir : String) : World :=
  { w with localFiles := w.localFiles.filter (fun e => !(strStarts e.1 (dir ++ "/"))) }

/-- `os.listdir(temp_dir)` (line 171): names of the files under the directory. -/
def listdir (w : World) (dir : String) : List String :=
  (w.localFiles.filter (fun e => strStarts e.1 (dir ++ "/"))).map
    (fun e => e.1.drop (dir ++ "/").length)

/-- Line 171: `sorted([f for f in os.listdir(temp_dir) if f.endswith('.csv')])`. -/
def listChunkFiles (listing : List String) : List String :=
  List.insertionSort strOrder (listing.filter (fun f => strEnds f ".csv"))

/-- Fault injection and shard data for one `process_day` execution. -/
structure DayEnv where
  queryOk : Bool
  exportOk : Bool
  blobs : List String
  blobContent : String → List String
  downloadOk : String → Bool
  deleteTableOk : Bool
  deleteBlobOk : String → Bool
  now : String

/-- Result of one `process_day` execution: the returned string, the stage
that raised (if any), the final world, and the remote-call trace. -/
structure DayResult where
  outcome : Outcome
  stage : Option Stage
  world : World
  trace : List RemoteOp
deriving Repr, DecidableEq

/-- Line 272: `f"FAILED: {date_str} | Time: {current_time} | Error: {str(e)}\n"`. -/
def failLine (d now msg : String) : String :=
  "FAILED: " ++ d ++ " | Time: " ++ now ++ " | Error: " ++ msg

/-- The `except` block (lines 262-273): append one failure line, return `"failed"`. -/
def failDay (d : String) (env : DayEnv) (s : Stage) (msg : String) (w : World)
    (tr : List RemoteOp) : DayResult :=
  { outcome := Outcome.failed, stage := some s,
    world := { w with failureLog := w.failureLog ++ [failLine d env.now msg] },
    trace := tr }

/-- `process_chunk` (lines 186-200): skip the header line unless first chunk;
`none` models the `StopIteration` that `next(infile)` raises on an empty file. -/
def process_chunk (content : List String) (isFirst : Bool) : Option (Nat × List String) :=
  if isFirst then some (content.length, content)
  else
    match content with
    | [] => none
    | _ :: rest => some (rest.length, rest)

/-- The writing loop (lines 208-217): append each processed chunk in order,
stopping at the first chunk whose processing raises. -/
def writeLoop (chunks : List (List String)) (isFirst : Bool) (written : List String) :
    List String × Bool :=
  match chunks with
  | [] => (written, true)
  | c :: rest =>
    match process_chunk c isFirst with
    | none => (written, false)
    | some r => writeLoop rest false (written ++ r.2)

/-- Lines 178-217: read the header from the first chunk, write it, then write
every chunk processed by `process_chunk`.  Returns the lines written to the
final file and whether the merge ran to completion. -/
def combineChunks (chunkContents : List (List String)) : List String × Bool :=
  writeLoop chunkContents true [(chunkContents.headD []).headD ""]

/-- The blob-deletion loop (lines 232-233), which can raise partway through. -/
def deleteBlobs (env : DayEnv) (blobs : List String) (w : World) (tr : List RemoteOp) :
    World × List RemoteOp × Bool :=
  match blobs with
  | [] => (w, tr, true)
  | b :: rest =>
    if env.deleteBlobOk b then
      deleteBlobs env rest
        { w with shardObjects := w.shardObjects.filter (fun x => !(x == b)) }
        (tr ++ [RemoteOp.deleteBlob b])
    else (w, tr ++ [RemoteOp.deleteBlob b], false)

/-- The blobs whose download succeeds (lines 155-160 keep these chunk paths). -/
def okBlobs (env : DayEnv) : List String := env.blobs.filter (fun b => env.downloadOk b)

/-- The world after querying (line 119), exporting (line 132) and downloading
every fetchable chunk into the staging directory (lines 150-161). -/
def dlWorld (env : DayEnv) (w : World) (d : String) : World :=
  (okBlobs env).foldl
    (fun w b => writeFile w (tempDir d ++ "/" ++ basename b) (env.blobContent b))
    { w with tableExists := true, shardObjects := env.blobs }

/-- The remote calls issued up to the end of the download step. -/
def dlTrace (env : DayEnv) : List RemoteOp :=
  [RemoteOp.submitQuery, RemoteOp.exportTable, RemoteOp.listBlobs]
    ++ env.blobs.map RemoteOp.downloadBlob

/-- Line 171 applied to the staging directory. -/
def dayChunkFiles (env : DayEnv) (w : World) (d : String) : List String :=
  listChunkFiles (listdir (dlWorld env w d) (tempDir d))

/-- The chunk contents handed to the merge, in lexical file order. -/
def dayContents (env : DayEnv) (w : World) (d : String) : List (List String) :=
  (dayChunkFiles env w d).map
    (fun f => (lookupFile (dlWorld env w d) (tempDir d ++ "/" ++ f)).getD [])

/-- The lines written to the final file and the merge completion flag. -/
def dayMerged (env : DayEnv) (w : World) (d : String) : List String × Bool :=
  combineChunks (dayContents env w d)

/-- The world right after the merge loop wrote the final file (lines 203-218). -/
def mergedWorld (env : DayEnv) (w : World) (d : String) : World :=
  writeFile (dlWorld env w d) (finalFile d) (dayMerged env w d).1

/-- `process_day` (lines 47-273). -/
def processDay (env : DayEnv) (w : World) (d : String) : DayResult :=
  -- lines 68-72: skip if the final file already exists
  if (lookupFile w (finalFile d)).isSome then
    { outcome := Outcome.skipped, stage := none, world := w, trace := [] }
  else
    -- lines 117-119: run the query into the destination table
    if !env.queryOk then
      failDay d env Stage.querying "query job failed" w [RemoteOp.submitQuery]
    -- lines 127-132: extract the table to GCS
    else if !env.exportOk then
      failDay d env Stage.exporting "extract job failed" { w with tableExists := true }
        [RemoteOp.submitQuery, RemoteOp.exportTable]
    -- lines 138-142: list the exported blobs
    else if env.blobs.isEmpty then
      failDay d env Stage.exporting
        ("No chunks found in GCS with prefix: temp/" ++ tableName d ++ "/")
        { w with tableExists := true, shardObjects := env.blobs }
        [RemoteOp.submitQuery, RemoteOp.exportTable, RemoteOp.listBlobs]
    -- lines 146-164: every blob is downloaded; failures are counted, not cancelled
    else if env.blobs.length - (okBlobs env).length > 0 then
      failDay d env Stage.downloading
        ("Failed to download " ++ toString (env.blobs.length - (okBlobs env).length)
          ++ " chunks") (dlWorld env w d) (dlTrace env)
    -- lines 168-218: combine the chunks into the final file
    else if (dayChunkFiles env w d).isEmpty then
      failDay d env Stage.merging "No chunks downloaded" (dlWorld env w d) (dlTrace env)
    else if !(dayMerged env w d).2 then
      failDay d env Stage.merging "StopIteration" (mergedWorld env w d) (dlTrace env)
    -- lines 222-237: cleanup
    else if !env.deleteTableOk then
      failDay d env Stage.cleaningUp "delete table failed" (mergedWorld env w d)
        (dlTrace env ++ [RemoteOp.deleteTable])
    else
      let del := deleteBlobs env env.blobs
        { mergedWorld env w d with tableExists := false }
        (dlTrace env ++ [RemoteOp.deleteTable])
      if !del.2.2 then
        failDay d env Stage.cleaningUp "delete blob failed" del.1 del.2.1
      else
        { outcome := Outcome.success, stage := none,
          world := rmtree del.1 (tempDir d), trace := del.2.1 }

/-- Aggregate counters of `download_gencast_2024` (lines 342-345). -/
structure Counts where
  successful : Nat
  skipped : Nat
  failed : Nat
  completed : Nat
deriving Repr, DecidableEq

/-- Lines 361-369: bump `completed` and the counter matching the outcome. -/
def recordOutcome (c : Counts) (o : Outcome) : Counts :=
  match o with
  | Outcome.success => { c with successful := c.successful + 1, completed := c.completed + 1 }
  | Outcome.skipped => { c with skipped := c.skipped + 1, completed := c.completed + 1 }
  | Outcome.failed => { c with failed := c.failed + 1, completed := c.completed + 1 }

/-- One iteration of the scheduler result loop (lines 358-383). -/
def batchStep (envs : String → DayEnv) (acc : Counts × World) (d : String) : Counts × World :=
  (recordOutcome acc.1 (processDay (envs d) acc.2 d).outcome, (processDay (envs d) acc.2 d).world)

/-- The scheduler loop (lines 350-388): every date is processed, each
outcome is tallied, and no failure aborts the batch. -/
def runBatch (envs : String → DayEnv) (w : World) (dates : List String) : Counts × World :=
  dates.foldl (batchStep envs)
    ({ successful := 0, skipped := 0, failed := 0, completed := 0 }, w)

/-! ### The retry policy of the remote client (modelled from the spec) -/

/-- Modelled from the spec: the per-attempt backoff delay of RetryPolicy
(spec 4.5), missing from the sources because retrying is performed inside the
remote client library: initial delay 1s, multiplier 2, cap 60s per attempt. -/
def backoffDelay (k : Nat) : Nat := min (2 ^ k) 60

/-- Modelled from the spec: the retry loop of RetryPolicy (spec 4.5), missing
from the sources because retrying is performed inside the remote client
library.  `op k` is the outcome of attempt `k`; a permanent error propagates
immediately; a transient error sleeps `backoffDelay k` and retries unless that
would pass the 600s overall deadline, in which case the last error propagates.
Returns the result together with the list of delays slept.  The fuel argument
bounds recursion; every retry consumes at least one second of the deadline,
so fuel 601 is never exhausted. -/
def retryGo {E A : Type} (op : Nat → Except E A) (transient : E → Bool) :
    Nat → Nat → Nat → Except E A × List Nat
  | 0, k, _ => (op k, [])
  | fuel + 1, k, elapsed =>
    match op k with
    | Except.ok a => (Except.ok a, [])
    | Except.error e =>
      if transient e then
        if elapsed + backoffDelay k > 600 then (Except.error e, [])
        else
          let r := retryGo op transient fuel (k + 1) (elapsed + backoffDelay k)
          (r.1, backoffDelay k :: r.2)
      else (Except.error e, [])

/-- Modelled from the spec: executing one remote operation under RetryPolicy
(spec 4.5), starting at attempt 0 with no elapsed time. -/
def retryExecute {E A : Type} (op : Nat → Except E A) (transient : E → Bool) :
    Except E A × List Nat :=
  retryGo op transient 601 0 0

/-- An operation that fails on every attempt, tagging the error with the
attempt number. -/
def alwaysFail : Nat → Except Nat Unit := fun k => Except.error k

theorem retryGo_permanent {E A : Type} (op : Nat → Except E A) (transient : E → Bool)
    (e : E) (fuel k elapsed : Nat) (h1 : op k = Except.error e)
    (h2 : transient e = false) :
    retryGo op transient (fuel + 1) k elapsed = (Except.error e, []) := by
  simp only [retryGo, h1, h2]
  rfl

/-! ### Properties of the lexicographic order used by `sorted` -/

theorem char_toNat_inj {a b : Char} (h : a.toNat = b.toNat) : a = b := by
  rw [← Char.ofNat_toNat a, ← Char.ofNat_toNat b, h]

theorem charListLe_total : ∀ (a b : List Char), charListLe a b = true ∨ charListLe b a = true
  | [], _ => Or.inl rfl
  | _ :: _, [] => Or.inr rfl
  | x :: xs, y :: ys => by
    simp only [charListLe]
    rcases Nat.lt_trichotomy x.toNat y.toNat with h | h | h
    · exact Or.inl (by rw [if_pos h])
    · rcases charListLe_total xs ys with ih | ih
      · exact Or.inl (by rw [if_neg (by omega), if_neg (by omega)]; exact ih)
      · exact Or.inr (by rw [if_neg (by omega), if_neg (by omega)]; exact ih)
    · exact Or.inr (by rw [if_pos h])

theorem charListLe_trans : ∀ (a b c : List Char), charListLe a b = true →
    charListLe b c = true → charListLe a c = true
  | [], _, _, _, _ => rfl
  | _ :: _, [], _, h, _ => by simp [charListLe] at h
  | _ :: _, _ :: _, [], _, h => by simp [charListLe] at h
  | x :: xs, y :: ys, z :: zs, h₁, h₂ => by
    simp only [charListLe] at h₁ h₂ ⊢
    rcases Nat.lt_trichotomy x.toNat y.toNat with hxy | hxy | hxy
    · rcases Nat.lt_trichotomy y.toNat z.toNat with hyz | hyz | hyz
      · rw [if_pos (by omega)]
      · rw [if_pos (by omega)]
      · rw [if_neg (by omega), if_pos (by omega)] at h₂; simp at h₂
    · rw [if_neg (by omega), if_neg (by omega)] at h₁
      rcases Nat.lt_trichotomy y.toNat z.toNat with hyz | hyz | hyz
      · rw [if_pos (by omega)]
      · rw [if_neg (by omega), if_neg (by omega)] at h₂
        rw [if_neg (by omega), if_neg (by omega)]
        exact charListLe_trans xs ys zs h₁ h₂
      · rw [if_neg (by omega), if_pos (by omega)] at h₂; simp at h₂
    · rw [if_neg (by omega), if_pos (by omega)] at h₁; simp at h₁

theorem charListLe_antisymm : ∀ {a b : List Char}, charListLe a b = true →
    charListLe b a = true → a = b
  | [], [], _, _ => rfl
  | [], _ :: _, _, h => by simp [charListLe] at h
  | _ :: _, [], h, _ => by simp [charListLe] at h
  | x :: xs, y :: ys, h₁, h₂ => by
    simp only [charListLe] at h₁ h₂
    rcases Nat.lt_trichotomy x.toNat y.toNat with hxy | hxy | hxy
    · rw [if_neg (by omega), if_pos (by omega)] at h₂; simp at h₂
    · rw [if_neg (by omega), if_neg (by omega)] at h₁
      rw [if_neg (by omega), if_neg (by omega)] at h₂
      rw [char_toNat_inj hxy, charListLe_antisymm h₁ h₂]
    · rw [if_neg (by omega), if_pos (by omega)] at h₁; simp at h₁

instance : IsTotal String strOrder := ⟨fun a b => charListLe_total a.data b.data⟩

instance : IsTrans String strOrder := ⟨fun a b c => charListLe_trans a.data b.data c.data⟩

instance : IsAntisymm String strOrder :=
  ⟨fun a b h₁ h₂ => by
    cases a; cases b
    exact congrArg String.mk (charListLe_antisymm h₁ h₂)⟩

/-! ### Filesystem helper lemmas -/

theorem find?_filter_out (l : List (String × List String)) (p q : String) (h : p ≠ q) :
    (l.filter (fun e => !(e.1 == p))).find? (fun e => e.1 == q) =
      l.find? (fun e => e.1 == q) := by
  induction l with
  | nil => rfl
  | cons e rest ih =>
    by_cases hp : e.1 = p
    · have hp1 : (e.1 == p) = true := beq_iff_eq.mpr hp
      have hq1 : (e.1 == q) = false := beq_eq_false_iff_ne.mpr (by rw [hp]; exact h)
      simp [List.filter_cons, List.find?_cons, hp1, hq1, ih]
    · have hp1 : (e.1 == p) = false := beq_eq_false_iff_ne.mpr hp
      by_cases hq : e.1 = q
      · have hq1 : (e.1 == q) = true := beq_iff_eq.mpr hq
        simp [List.filter_cons, List.find?_cons, hp1, hq1]
      · have hq1 : (e.1 == q) = false := beq_eq_false_iff_ne.mpr hq
        simp [List.filter_cons, List.find?_cons, hp1, hq1, ih]

theorem lookupFile_writeFile_self (w : World) (p : String) (c : List String) :
    lookupFile (writeFile w p c) p = some c := by
  simp [lookupFile, writeFile]

theorem lookupFile_writeFile_ne (w : World) (p q : String) (c : List String) (h : p ≠ q) :
    lookupFile (writeFile w p c) q = lookupFile w q := by
  have hpq : (p == q) = false := by simp [h]
  simp [lookupFile, writeFile, List.find?_cons, hpq, find?_filter_out _ _ _ h]

theorem lookupFile_writeFile_isSome (w : World) (p q : String) (c : List String)
    (h : (lookupFile w q).isSome = true) :
    (lookupFile (writeFile w p c) q).isSome = true := by
  by_cases hp : p = q
  · subst hp; simp [lookupFile_writeFile_self]
  · rw [lookupFile_writeFile_ne _ _ _ _ hp]; exact h

theorem lookupFile_foldl_write_ne (l : List String) (f : String → String)
    (g : String → List String) :
    ∀ (w : World) (q : String), (∀ b ∈ l, f b ≠ q) →
    lookupFile (l.foldl (fun w b => writeFile w (f b) (g b)) w) q = lookupFile w q := by
  induction l with
  | nil => intro w q _; rfl
  | cons b rest ih =>
    intro w q h
    simp only [List.foldl_cons]
    rw [ih _ _ (fun x hx => h x (List.mem_cons_of_mem _ hx)),
      lookupFile_writeFile_ne _ _ _ _ (h b (List.mem_cons_self _ _))]

theorem lookupFile_foldl_write_isSome (l : List String) (f : String → String)
    (g : String → List String) :
    ∀ (w : World) (q : String), (lookupFile w q).isSome = true →
    (lookupFile (l.foldl (fun w b => writeFile w (f b) (g b)) w) q).isSome = true := by
  induction l with
  | nil => intro w q h; exact h
  | cons b rest ih =>
    intro w q h
    simp only [List.foldl_cons]
    exact ih _ _ (lookupFile_writeFile_isSome _ _ _ _ h)

theorem lookupFile_foldl_write_mem (l : List String) (f : String → String)
    (g : String → List String) :
    ∀ (w : World) (b : String), b ∈ l →
    (lookupFile (l.foldl (fun w x => writeFile w (f x) (g x)) w) (f b)).isSome = true := by
  induction l with
  | nil => intro w b hb; cases hb
  | cons x rest ih =>
    intro w b hb
    simp only [List.foldl_cons]
    rcases List.mem_cons.mp hb with rfl | hb'
    · exact lookupFile_foldl_write_isSome _ _ _ _ _
        (by simp [lookupFile_writeFile_self])
    · exact ih _ _ hb'

/-- Paths written to the staging directory are never the final artifact path:
the two differ in their sixth character. -/
theorem tempPath_ne_finalFile (d bn x : String) : tempDir d ++ "/" ++ bn ≠ finalFile x := by
  intro h
  have h2 : (tempDir d ++ "/" ++ bn).data = (finalFile x).data := by rw [h]
  simp only [tempDir, finalFile, String.data_append] at h2
  simp only [List.cons_append, List.nil_append, List.append_assoc] at h2
  injection h2 with _ h2; injection h2 with _ h2; injection h2 with _ h2
  injection h2 with _ h2; injection h2 with _ h2; injection h2 with hc _
  exact absurd hc (by decide)

/-! ### Shape lemmas for the worlds built along the pipeline -/

theorem lookupFile_eq_of_localFiles {w₁ w₂ : World} (p : String)
    (h : w₁.localFiles = w₂.localFiles) : lookupFile w₁ p = lookupFile w₂ p := by
  simp [lookupFile, h]

theorem foldl_write_shape (l : List String) (f : String → String)
    (g : String → List String) :
    ∀ (w : World),
    (l.foldl (fun w b => writeFile w (f b) (g b)) w).tableExists = w.tableExists ∧
    (l.foldl (fun w b => writeFile w (f b) (g b)) w).shardObjects = w.shardObjects ∧
    (l.foldl (fun w b => writeFile w (f b) (g b)) w).failureLog = w.failureLog := by
  induction l with
  | nil => intro w; exact ⟨rfl, rfl, rfl⟩
  | cons b rest ih =>
    intro w
    simp only [List.foldl_cons]
    exact ih (writeFile w (f b) (g b))

theorem dlWorld_shape (env : DayEnv) (w : World) (d : String) :
    (dlWorld env w d).tableExists = true ∧
    (dlWorld env w d).shardObjects = env.blobs ∧
    (dlWorld env w d).failureLog = w.failureLog :=
  foldl_write_shape (okBlobs env) (fun b => tempDir d ++ "/" ++ basename b)
    env.blobContent { w with tableExists := true, shardObjects := env.blobs }

theorem mergedWorld_shape (env : DayEnv) (w : World) (d : String) :
    (mergedWorld env w d).tableExists = true ∧
    (mergedWorld env w d).shardObjects = env.blobs ∧
    (mergedWorld env w d).failureLog = w.failureLog :=
  dlWorld_shape env w d

theorem deleteBlobs_shape (env : DayEnv) (blobs : List String) :
    ∀ (w : World) (tr : List RemoteOp),
    (deleteBlobs env blobs w tr).1.localFiles = w.localFiles ∧
    (deleteBlobs env blobs w tr).1.tableExists = w.tableExists ∧
    (deleteBlobs env blobs w tr).1.failureLog = w.failureLog := by
  induction blobs with
  | nil => intro w tr; exact ⟨rfl, rfl, rfl⟩
  | cons b rest ih =>
    intro w tr
    simp only [deleteBlobs]
    by_cases hb : env.deleteBlobOk b = true
    · rw [if_pos hb]
      exact ih _ _
    · rw [if_neg hb]
      exact ⟨rfl, rfl, rfl⟩

theorem deleteBlobs_allOk (env : DayEnv) (blobs : List String) :
    ∀ (w : World) (tr : List RemoteOp), (∀ b ∈ blobs, env.deleteBlobOk b = true) →
    (∀ x ∈ w.shardObjects, x ∈ blobs) →
    deleteBlobs env blobs w tr =
      ({ w with shardObjects := [] }, tr ++ blobs.map RemoteOp.deleteBlob, true) := by
  induction blobs with
  | nil =>
    intro w tr _ hsub
    have hnil : w.shardObjects = [] :=
      List.eq_nil_iff_forall_not_mem.mpr (fun a ha => by cases hsub a ha)
    obtain ⟨lf, te, so, fl⟩ := w
    simp only at hnil
    subst hnil
    simp [deleteBlobs]
  | cons b rest ih =>
    intro w tr hall hsub
    simp only [deleteBlobs]
    rw [if_pos (hall b (List.mem_cons_self _ _))]
    rw [ih _ _ (fun x hx => hall x (List.mem_cons_of_mem _ hx))
      (fun x hx => by
        have hm := List.mem_filter.mp hx
        have hxb : x ≠ b := by simpa using hm.2
        rcases List.mem_cons.mp (hsub x hm.1) with h | h
        · exact absurd h hxb
        · exact h)]
    simp [List.append_assoc]

/-! ### Branch characterizations of `processDay` -/

theorem processDay_skip (env : DayEnv) (w : World) (d : String)
    (h : (lookupFile w (finalFile d)).isSome = true) :
    processDay env w d =
      { outcome := Outcome.skipped, stage := none, world := w, trace := [] } := by
  unfold processDay
  rw [if_pos h]

theorem processDay_queryFail (env : DayEnv) (w : World) (d : String)
    (hA : lookupFile w (finalFile d) = none) (hq : env.queryOk = false) :
    processDay env w d =
      failDay d env Stage.querying "query job failed" w [RemoteOp.submitQuery] := by
  unfold processDay
  rw [if_neg (by simp [hA]), if_pos (by simp [hq])]

theorem processDay_exportFail (env : DayEnv) (w : World) (d : String)
    (hA : lookupFile w (finalFile d) = none) (hq : env.queryOk = true)
    (he : env.exportOk = false) :
    processDay env w d =
      failDay d env Stage.exporting "extract job failed" { w with tableExists := true }
        [RemoteOp.submitQuery, RemoteOp.exportTable] := by
  unfold processDay
  rw [if_neg (by simp [hA]), if_neg (by simp [hq]), if_pos (by simp [he])]

theorem processDay_noShards (env : DayEnv) (w : World) (d : String)
    (hA : lookupFile w (finalFile d) = none) (hq : env.queryOk = true)
    (he : env.exportOk = true) (hb : env.blobs = []) :
    processDay env w d =
      failDay d env Stage.exporting
        ("No chunks found in GCS with prefix: temp/" ++ tableName d ++ "/")
        { w with tableExists := true, shardObjects := env.blobs }
        [RemoteOp.submitQuery, RemoteOp.exportTable, RemoteOp.listBlobs] := by
  unfold processDay
  rw [if_neg (by simp [hA]), if_neg (by simp [hq]), if_neg (by simp [he]),
    if_pos (by simp [hb])]

theorem processDay_downloadFail (env : DayEnv) (w : World) (d : String)
    (hA : lookupFile w (finalFile d) = none) (hq : env.queryOk = true)
    (he : env.exportOk = true)
    (hf : ∃ b ∈ env.blobs, env.downloadOk b = false) :
    processDay env w d =
      failDay d env Stage.downloading
        ("Failed to download " ++ toString (env.blobs.length - (okBlobs env).length)
          ++ " chunks") (dlWorld env w d) (dlTrace env) := by
  have hb : env.blobs ≠ [] := by
    obtain ⟨b, hbm, -⟩ := hf
    intro hnil
    rw [hnil] at hbm
    cases hbm
  have h5 : env.blobs.length - (okBlobs env).length > 0 := by
    have hlt : (okBlobs env).length < env.blobs.length := by
      simp only [okBlobs]
      exact List.length_filter_lt_length_iff_exists.mpr
        (by obtain ⟨b, h1, h2⟩ := hf; exact ⟨b, h1, by simp [h2]⟩)
    omega
  unfold processDay
  rw [if_neg (by simp [hA]), if_neg (by simp [hq]), if_neg (by simp [he]),
    if_neg (by simp [List.isEmpty_iff, hb]), if_pos h5]

theorem okBlobs_all (env : DayEnv) (hd : ∀ b ∈ env.blobs, env.downloadOk b = true) :
    okBlobs env = env.blobs := by
  simp only [okBlobs]
  exact List.filter_eq_self.mpr hd

theorem processDay_noChunks (env : DayEnv) (w : World) (d : String)
    (hA : lookupFile w (finalFile d) = none) (hq : env.queryOk = true)
    (he : env.exportOk = true) (hb : env.blobs ≠ [])
    (hd : ∀ b ∈ env.blobs, env.downloadOk b = true)
    (hcf : dayChunkFiles env w d = []) :
    processDay env w d =
      failDay d env Stage.merging "No chunks downloaded" (dlWorld env w d) (dlTrace env) := by
  unfold processDay
  rw [if_neg (by simp [hA]), if_neg (by simp [hq]), if_neg (by simp [he]),
    if_neg (by simp [List.isEmpty_iff, hb]), if_neg (by rw [okBlobs_all env hd]; omega),
    if_pos (by simp [hcf])]

theorem processDay_mergeFail (env : DayEnv) (w : World) (d : String)
    (hA : lookupFile w (finalFile d) = none) (hq : env.queryOk = true)
    (he : env.exportOk = true) (hb : env.blobs ≠ [])
    (hd : ∀ b ∈ env.blobs, env.downloadOk b = true)
    (hcf : dayChunkFiles env w d ≠ []) (hm : (dayMerged env w d).2 = false) :
    processDay env w d =
      failDay d env Stage.merging "StopIteration" (mergedWorld env w d) (dlTrace env) := by
  unfold processDay
  rw [if_neg (by simp [hA]), if_neg (by simp [hq]), if_neg (by simp [he]),
    if_neg (by simp [List.isEmpty_iff, hb]), if_neg (by rw [okBlobs_all env hd]; omega),
    if_neg (by simp [List.isEmpty_iff, hcf]), if_pos (by simp [hm])]

theorem processDay_tableDelFail (env : DayEnv) (w : World) (d : String)
    (hA : lookupFile w (finalFile d) = none) (hq : env.queryOk = true)
    (he : env.exportOk = true) (hb : env.blobs ≠ [])
    (hd : ∀ b ∈ env.blobs, env.downloadOk b = true)
    (hcf : dayChunkFiles env w d ≠ []) (hm : (dayMerged env w d).2 = true)
    (hdt : env.deleteTableOk = false) :
    processDay env w d =
      failDay d env Stage.cleaningUp "delete table failed" (mergedWorld env w d)
        (dlTrace env ++ [RemoteOp.deleteTable]) := by
  unfold processDay
  rw [if_neg (by simp [hA]), if_neg (by simp [hq]), if_neg (by simp [he]),
    if_neg (by simp [List.isEmpty_iff, hb]), if_neg (by rw [okBlobs_all env hd]; omega),
    if_neg (by simp [List.isEmpty_iff, hcf]), if_neg (by simp [hm]),
    if_pos (by simp [hdt])]

theorem processDay_blobDelFail (env : DayEnv) (w : World) (d : String)
    (hA : lookupFile w (finalFile d) = none) (hq : env.queryOk = true)
    (he : env.exportOk = true) (hb : env.blobs ≠ [])
    (hd : ∀ b ∈ env.blobs, env.downloadOk b = true)
    (hcf : dayChunkFiles env w d ≠ []) (hm : (dayMerged env w d).2 = true)
    (hdt : env.deleteTableOk = true)
    (hdb : (deleteBlobs env env.blobs { mergedWorld env w d with tableExists := false }
      (dlTrace env ++ [RemoteOp.deleteTable])).2.2 = false) :
    processDay env w d =
      failDay d env Stage.cleaningUp "delete blob failed"
        (deleteBlobs env env.blobs { mergedWorld env w d with tableExists := false }
          (dlTrace env ++ [RemoteOp.deleteTable])).1
        (deleteBlobs env env.blobs { mergedWorld env w d with tableExists := false }
          (dlTrace env ++ [RemoteOp.deleteTable])).2.1 := by
  unfold processDay
  rw [if_neg (by simp [hA]), if_neg (by simp [hq]), if_neg (by simp [he]),
    if_neg (by simp [List.isEmpty_iff, hb]), if_neg (by rw [okBlobs_all env hd]; omega),
    if_neg (by simp [List.isEmpty_iff, hcf]), if_neg (by simp [hm]),
    if_neg (by simp [hdt]), if_pos (by simp [hdb])]

theorem processDay_success (env : DayEnv) (w : World) (d : String)
    (hA : lookupFile w (finalFile d) = none) (hq : env.queryOk = true)
    (he : env.exportOk = true) (hb : env.blobs ≠ [])
    (hd : ∀ b ∈ env.blobs, env.downloadOk b = true)
    (hcf : dayChunkFiles env w d ≠ []) (hm : (dayMerged env w d).2 = true)
    (hdt : env.deleteTableOk = true)
    (hdb : ∀ b ∈ env.blobs, env.deleteBlobOk b = true) :
    processDay env w d =
      { outcome := Outcome.success, stage := none,
        world := rmtree { mergedWorld env w d with tableExists := false, shardObjects := [] }
          (tempDir d),
        trace := dlTrace env ++ [RemoteOp.deleteTable]
          ++ env.blobs.map RemoteOp.deleteBlob } := by
  have hdel := deleteBlobs_allOk env env.blobs
    { mergedWorld env w d with tableExists := false }
    (dlTrace env ++ [RemoteOp.deleteTable]) hdb
    (by
      intro x hx
      simpa [(mergedWorld_shape env w d).2.1] using hx)
  unfold processDay
  rw [if_neg (by simp [hA]), if_neg (by simp [hq]), if_neg (by simp [he]),
    if_neg (by simp [List.isEmpty_iff, hb]), if_neg (by rw [okBlobs_all env hd]; omega),
    if_neg (by simp [List.isEmpty_iff, hcf]), if_neg (by simp [hm]),
    if_neg (by simp [hdt])]
  rw [hdel]
  simp [List.append_assoc]

theorem processDay_successIf (env : DayEnv) (w : World) (d : String)
    (hA : lookupFile w (finalFile d) = none) (hq : env.queryOk = true)
    (he : env.exportOk = true) (hb : env.blobs ≠ [])
    (hd : ∀ b ∈ env.blobs, env.downloadOk b = true)
    (hcf : dayChunkFiles env w d ≠ []) (hm : (dayMerged env w d).2 = true)
    (hdt : env.deleteTableOk = true)
    (hdb : (deleteBlobs env env.blobs { mergedWorld env w d with tableExists := false }
      (dlTrace env ++ [RemoteOp.deleteTable])).2.2 = true) :
    processDay env w d =
      { outcome := Outcome.success, stage := none,
        world := rmtree (deleteBlobs env env.blobs
          { mergedWorld env w d with tableExists := false }
          (dlTrace env ++ [RemoteOp.deleteTable])).1 (tempDir d),
        trace := (deleteBlobs env env.blobs
          { mergedWorld env w d with tableExists := false }
          (dlTrace env ++ [RemoteOp.deleteTable])).2.1 } := by
  unfold processDay
  rw [if_neg (by simp [hA]), if_neg (by simp [hq]), if_neg (by simp [he]),
    if_neg (by simp [List.isEmpty_iff, hb]), if_neg (by rw [okBlobs_all env hd]; omega),
    if_neg (by simp [List.isEmpty_iff, hcf]), if_neg (by simp [hm]),
    if_neg (by simp [hdt]), if_neg (by simp [hdb])]

/-- Exhaustive characterization of a `process_day` execution: exactly one of
the ten control-flow exits is taken, each with its guarding condition. -/
theorem processDay_total_cases (env : DayEnv) (w : World) (d : String) :
    ((lookupFile w (finalFile d)).isSome = true ∧ processDay env w d =
      { outcome := Outcome.skipped, stage := none, world := w, trace := [] }) ∨
    (env.queryOk = false ∧ processDay env w d =
      failDay d env Stage.querying "query job failed" w [RemoteOp.submitQuery]) ∨
    (env.exportOk = false ∧ processDay env w d =
      failDay d env Stage.exporting "extract job failed" { w with tableExists := true }
        [RemoteOp.submitQuery, RemoteOp.exportTable]) ∨
    (env.blobs.isEmpty = true ∧ processDay env w d =
      failDay d env Stage.exporting
        ("No chunks found in GCS with prefix: temp/" ++ tableName d ++ "/")
        { w with tableExists := true, shardObjects := env.blobs }
        [RemoteOp.submitQuery, RemoteOp.exportTable, RemoteOp.listBlobs]) ∨
    (env.blobs.length - (okBlobs env).length > 0 ∧ processDay env w d =
      failDay d env Stage.downloading
        ("Failed to download " ++ toString (env.blobs.length - (okBlobs env).length)
          ++ " chunks") (dlWorld env w d) (dlTrace env)) ∨
    ((dayChunkFiles env w d).isEmpty = true ∧ processDay env w d =
      failDay d env Stage.merging "No chunks downloaded" (dlWorld env w d) (dlTrace env)) ∨
    ((dayMerged env w d).2 = false ∧ processDay env w d =
      failDay d env Stage.merging "StopIteration" (mergedWorld env w d) (dlTrace env)) ∨
    (env.deleteTableOk = false ∧ processDay env w d =
      failDay d env Stage.cleaningUp "delete table failed" (mergedWorld env w d)
        (dlTrace env ++ [RemoteOp.deleteTable])) ∨
    ((deleteBlobs env env.blobs { mergedWorld env w d with tableExists := false }
        (dlTrace env ++ [RemoteOp.deleteTable])).2.2 = false ∧ processDay env w d =
      failDay d env Stage.cleaningUp "delete blob failed"
        (deleteBlobs env env.blobs { mergedWorld env w d with tableExists := false }
          (dlTrace env ++ [RemoteOp.deleteTable])).1
        (deleteBlobs env env.blobs { mergedWorld env w d with tableExists := false }
          (dlTrace env ++ [RemoteOp.deleteTable])).2.1) ∨
    ((deleteBlobs env env.blobs { mergedWorld env w d with tableExists := false }
        (dlTrace env ++ [RemoteOp.deleteTable])).2.2 = true ∧ processDay env w d =
      { outcome := Outcome.success, stage := none,
        world := rmtree (deleteBlobs env env.blobs
          { mergedWorld env w d with tableExists := false }
          (dlTrace env ++ [RemoteOp.deleteTable])).1 (tempDir d),
        trace := (deleteBlobs env env.blobs
          { mergedWorld env w d with tableExists := false }
          (dlTrace env ++ [RemoteOp.deleteTable])).2.1 }) := by
  simp only [processDay]
  split_ifs with h1 h2 h3 h4 h5 h6 h7 h8 h9
  · exact Or.inl ⟨h1, rfl⟩
  · exact Or.inr (Or.inl ⟨by simpa using h2, rfl⟩)
  · exact Or.inr (Or.inr (Or.inl ⟨by simpa using h3, rfl⟩))
  · exact Or.inr (Or.inr (Or.inr (Or.inl ⟨h4, rfl⟩)))
  · exact Or.inr (Or.inr (Or.inr (Or.inr (Or.inl ⟨h5, rfl⟩))))
  · exact Or.inr (Or.inr (Or.inr (Or.inr (Or.inr (Or.inl ⟨h6, rfl⟩)))))
  · exact Or.inr (Or.inr (Or.inr (Or.inr (Or.inr (Or.inr (Or.inl ⟨by simpa using h7, rfl⟩))))))
  · exact Or.inr (Or.inr (Or.inr (Or.inr (Or.inr (Or.inr (Or.inr (Or.inl ⟨by simpa using h8, rfl⟩)))))))
  · exact Or.inr (Or.inr (Or.inr (Or.inr (Or.inr (Or.inr (Or.inr (Or.inr
      (Or.inl ⟨by simpa using h9, rfl⟩))))))))
  · refine Or.inr (Or.inr (Or.inr (Or.inr (Or.inr (Or.inr (Or.inr (Or.inr
      (Or.inr ⟨?_, rfl⟩))))))))
    revert h9
    cases (deleteBlobs env env.blobs { mergedWorld env w d with tableExists := false }
      (dlTrace env ++ [RemoteOp.deleteTable])).2.2 <;> simp

/-- Whenever `process_day` raises (any stage is recorded), the returned value
is `"failed"` and exactly one failure line was appended to the failure log. -/
theorem processDay_failed_shape (env : DayEnv) (w : World) (d : String) (s : Stage)
    (hs : (processDay env w d).stage = some s) :
    (processDay env w d).outcome = Outcome.failed ∧
    ∃ m, (processDay env w d).world.failureLog = w.failureLog ++ [failLine d env.now m] := by
  rcases processDay_total_cases env w d with ⟨-, h⟩ | ⟨-, h⟩ | ⟨-, h⟩ | ⟨-, h⟩ | ⟨-, h⟩
    | ⟨-, h⟩ | ⟨-, h⟩ | ⟨-, h⟩ | ⟨-, h⟩ | ⟨-, h⟩
  · rw [h] at hs; cases hs
  · rw [h]; exact ⟨rfl, "query job failed", rfl⟩
  · rw [h]; exact ⟨rfl, "extract job failed", rfl⟩
  · rw [h]
    exact ⟨rfl, "No chunks found in GCS with prefix: temp/" ++ tableName d ++ "/", rfl⟩
  · rw [h]
    refine ⟨rfl, "Failed to download "
      ++ toString (env.blobs.length - (okBlobs env).length) ++ " chunks", ?_⟩
    simp [failDay, (dlWorld_shape env w d).2.2]
  · rw [h]
    refine ⟨rfl, "No chunks downloaded", ?_⟩
    simp [failDay, (dlWorld_shape env w d).2.2]
  · rw [h]
    refine ⟨rfl, "StopIteration", ?_⟩
    simp [failDay, (mergedWorld_shape env w d).2.2]
  · rw [h]
    refine ⟨rfl, "delete table failed", ?_⟩
    simp [failDay, (mergedWorld_shape env w d).2.2]
  · rw [h]
    refine ⟨rfl, "delete blob failed", ?_⟩
    exact congrArg (fun l => l ++ [failLine d env.now "delete blob failed"])
      (((deleteBlobs_shape env env.blobs
          { mergedWorld env w d with tableExists := false }
          (dlTrace env ++ [RemoteOp.deleteTable])).2.2).trans
        (mergedWorld_shape env w d).2.2)
  · rw [h] at hs; cases hs

/-! ### Batch counting -/

theorem batch_go (envs : String → DayEnv) (dates : List String) :
    ∀ (acc : Counts × World),
    (dates.foldl (batchStep envs) acc).1.completed = acc.1.completed + dates.length ∧
    (dates.foldl (batchStep envs) acc).1.successful +
      (dates.foldl (batchStep envs) acc).1.skipped +
      (dates.foldl (batchStep envs) acc).1.failed
      = acc.1.successful + acc.1.skipped + acc.1.failed + dates.length := by
  induction dates with
  | nil => intro acc; simp
  | cons d rest ih =>
    intro acc
    simp only [List.foldl_cons]
    refine ⟨?_, ?_⟩
    · rw [(ih (batchStep envs acc d)).1]
      simp only [batchStep]
      cases (processDay (envs d) acc.2 d).outcome <;>
        simp [recordOutcome, List.length_cons] <;> omega
    · rw [(ih (batchStep envs acc d)).2]
      simp only [batchStep]
      cases (processDay (envs d) acc.2 d).outcome <;>
        simp [recordOutcome, List.length_cons] <;> omega

/-- The scheduler tallies every date and the three outcome counters
partition the completed count. -/
theorem runBatch_counts (envs : String → DayEnv) (w : World) (dates : List String) :
    (runBatch envs w dates).1.completed = dates.length ∧
    (runBatch envs w dates).1.successful + (runBatch envs w dates).1.skipped +
      (runBatch envs w dates).1.failed = dates.length := by
  have h := batch_go envs dates
    ({ successful := 0, skipped := 0, failed := 0, completed := 0 }, w)
  simpa [runBatch] using h

/-! ### Concrete execution environments used as witnesses -/

/-- The empty local/remote state before a fresh run. -/
def emptyWorld : World :=
  { localFiles := [], tableExists := false, shardObjects := [], failureLog := [] }

/-- An environment in which every remote operation succeeds over one shard. -/
def envAllOk : DayEnv :=
  { queryOk := true, exportOk := true,
    blobs := ["temp/gencast_20240501/000.csv"],
    blobContent := fun _ => ["h", "r1", "r2"],
    downloadOk := fun _ => true, deleteTableOk := true,
    deleteBlobOk := fun _ => true, now := "2024-05-01 13:00:00" }

/-- A world in which the artifact for 2024-05-01 is already present. -/
def wExisting : World :=
  { localFiles := [("data/gencast_20240501.csv", ["hdr", "r1"])],
    tableExists := false, shardObjects := [], failureLog := [] }

/-- A world holding only a truncated artifact for 2024-05-02 (a bare partial
header, as an interrupted merge would leave). -/
def wTruncated : World :=
  { localFiles := [("data/gencast_20240502.csv", ["forecast_ti"])],
    tableExists := false, shardObjects := [], failureLog := [] }

/-! ### Claim theorems -/

/-- C3: for every date whose final artifact file already exists when the day
job starts, `process_day` returns the skipped outcome, leaves the world
untouched, and issues no remote operation at all. -/
theorem skipped_day_makes_no_remote_calls (env : DayEnv) (w : World) (d : String)
    (h : (lookupFile w (finalFile d)).isSome = true) :
    (processDay env w d).outcome = Outcome.skipped ∧
    (processDay env w d).world = w ∧
    (processDay env w d).trace = [] := by
  rw [processDay_skip env w d h]
  exact ⟨rfl, rfl, rfl⟩

theorem skipped_day_makes_no_remote_calls_witness :
    (lookupFile wExisting (finalFile "20240501")).isSome = true ∧
    ((processDay envAllOk wExisting "20240501").outcome = Outcome.skipped ∧
      (processDay envAllOk wExisting "20240501").world = wExisting ∧
      (processDay envAllOk wExisting "20240501").trace = []) :=
  ⟨by decide,
    skipped_day_makes_no_remote_calls envAllOk wExisting "20240501" (by decide)⟩

/-- C10: the skip decision inspects only existence at the final artifact path,
never size or content: whatever file content is present there, including a
truncated partial file, the day is skipped with no remote call and an
unchanged world, and any later run over that world again skips the day. -/
theorem skip_ignores_file_content (env : DayEnv) (w : World) (d : String)
    (content : List String) (h : lookupFile w (finalFile d) = some content) :
    (processDay env w d).outcome = Outcome.skipped ∧
    (processDay env w d).world = w ∧
    (processDay env w d).trace = [] ∧
    ∀ env₂ : DayEnv, (processDay env₂ (processDay env w d).world d).outcome
      = Outcome.skipped := by
  have hsome : (lookupFile w (finalFile d)).isSome = true := by simp [h]
  rw [processDay_skip env w d hsome]
  refine ⟨rfl, rfl, rfl, ?_⟩
  intro env₂
  rw [processDay_skip env₂ w d hsome]

theorem skip_ignores_file_content_witness :
    lookupFile wTruncated (finalFile "20240502") = some ["forecast_ti"] ∧
    ((processDay envAllOk wTruncated "20240502").outcome = Outcome.skipped ∧
      (processDay envAllOk wTruncated "20240502").world = wTruncated ∧
      (processDay envAllOk wTruncated "20240502").trace = [] ∧
      ∀ env₂ : DayEnv,
        (processDay env₂ (processDay envAllOk wTruncated "20240502").world
          "20240502").outcome = Outcome.skipped) :=
  ⟨by decide,
    skip_ignores_file_content envAllOk wTruncated "20240502" ["forecast_ti"] (by decide)⟩

/-- C8: the merge consumes shard files in ascending lexical order of their
names: the chunk-file listing is sorted, the result does not depend on the
filesystem iteration order (it is invariant under permutations of the
listing), and on the listing [shard_b.csv, shard_a.csv] the file
shard_a.csv comes first. -/
theorem merge_order_is_lexical :
    (∀ l₁ l₂ : List String, l₁.Perm l₂ → listChunkFiles l₁ = listChunkFiles l₂) ∧
    (∀ l : List String, List.Sorted strOrder (listChunkFiles l)) ∧
    listChunkFiles ["shard_b.csv", "shard_a.csv"] = ["shard_a.csv", "shard_b.csv"] := by
  refine ⟨?_, ?_, by decide⟩
  · intro l₁ l₂ h
    exact List.eq_of_perm_of_sorted
      (((List.perm_insertionSort _ _).trans (h.filter _)).trans
        (List.perm_insertionSort _ _).symm)
      (List.sorted_insertionSort _ _) (List.sorted_insertionSort _ _)
  · intro l
    exact List.sorted_insertionSort _ _

theorem merge_order_is_lexical_witness :
    listChunkFiles ["shard_b.csv", "shard_a.csv"] =
      listChunkFiles ["shard_a.csv", "shard_b.csv"] :=
  merge_order_is_lexical.1 _ _ (List.Perm.swap "shard_a.csv" "shard_b.csv" [])

theorem failDay_world_localFiles (d : String) (env : DayEnv) (s : Stage) (m : String)
    (w : World) (tr : List RemoteOp) :
    (failDay d env s m w tr).world.localFiles = w.localFiles := rfl

/-- An environment in which the second of two shards fails to download. -/
def envDl : DayEnv :=
  { queryOk := true, exportOk := true,
    blobs := ["temp/gencast_20240503/000.csv", "temp/gencast_20240503/001.csv"],
    blobContent := fun _ => ["h", "r"],
    downloadOk := fun b => b == "temp/gencast_20240503/000.csv",
    deleteTableOk := true, deleteBlobOk := fun _ => true,
    now := "2024-05-03 10:00:00" }

/-- C7: shard downloading is all-or-nothing: a failed download cancels no
sibling (every blob is still attempted and every successful sibling is staged
locally), yet one failure fails the whole day, and no final artifact file is
created for that day. -/
theorem download_failure_fails_day (env : DayEnv) (w : World) (d : String)
    (hA : lookupFile w (finalFile d) = none) (hq : env.queryOk = true)
    (he : env.exportOk = true)
    (hf : ∃ b ∈ env.blobs, env.downloadOk b = false) :
    (processDay env w d).outcome = Outcome.failed ∧
    (processDay env w d).stage = some Stage.downloading ∧
    (∀ b ∈ env.blobs, RemoteOp.downloadBlob b ∈ (processDay env w d).trace) ∧
    (∀ b ∈ env.blobs, env.downloadOk b = true →
      (lookupFile (processDay env w d).world
        (tempDir d ++ "/" ++ basename b)).isSome = true) ∧
    lookupFile (processDay env w d).world (finalFile d) = none := by
  rw [processDay_downloadFail env w d hA hq he hf]
  refine ⟨rfl, rfl, ?_, ?_, ?_⟩
  · intro b hb
    simp only [failDay, dlTrace]
    simp only [List.mem_append, List.mem_cons, List.mem_map, List.not_mem_nil]
    exact Or.inr ⟨b, hb, rfl⟩
  · intro b hb hok
    rw [lookupFile_eq_of_localFiles _ (failDay_world_localFiles _ _ _ _ _ _)]
    unfold dlWorld
    exact lookupFile_foldl_write_mem (okBlobs env) _ env.blobContent _ b
      (by simpa [okBlobs, List.mem_filter] using ⟨hb, hok⟩)
  · rw [lookupFile_eq_of_localFiles _ (failDay_world_localFiles _ _ _ _ _ _)]
    unfold dlWorld
    rw [lookupFile_foldl_write_ne (okBlobs env) _ env.blobContent _ (finalFile d)
      (fun b _ => tempPath_ne_finalFile d (basename b) d)]
    exact hA

theorem download_failure_fails_day_witness :
    lookupFile emptyWorld (finalFile "20240503") = none ∧
    ((processDay envDl emptyWorld "20240503").outcome = Outcome.failed ∧
      (processDay envDl emptyWorld "20240503").stage = some Stage.downloading ∧
      (∀ b ∈ envDl.blobs,
        RemoteOp.downloadBlob b ∈ (processDay envDl emptyWorld "20240503").trace) ∧
      (∀ b ∈ envDl.blobs, envDl.downloadOk b = true →
        (lookupFile (processDay envDl emptyWorld "20240503").world
          (tempDir "20240503" ++ "/" ++ basename b)).isSome = true) ∧
      lookupFile (processDay envDl emptyWorld "20240503").world
        (finalFile "20240503") = none) :=
  ⟨by decide,
    download_failure_fails_day envDl emptyWorld "20240503" (by decide) (by decide)
      (by decide) ⟨"temp/gencast_20240503/001.csv", by decide, by decide⟩⟩

/-- An environment whose query fails immediately. -/
def envQF : DayEnv :=
  { queryOk := false, exportOk := true, blobs := [], blobContent := fun _ => [],
    downloadOk := fun _ => true, deleteTableOk := true, deleteBlobOk := fun _ => true,
    now := "2024-05-04 09:00:00" }

/-- C9: every error raised in the querying, exporting, downloading or merging
stage makes the day-level handler mark the day failed and append exactly one
line of the form FAILED: date, Time: timestamp, Error: message to the failure
log, and the scheduler never aborts: it tallies every date of the batch and
the aggregate succeeded, skipped and failed counts partition the total. -/
theorem stage_error_logged_batch_continues (env : DayEnv) (w : World) (d : String)
    (s : Stage) (hs : (processDay env w d).stage = some s)
    (hnc : s ≠ Stage.cleaningUp) :
    (processDay env w d).outcome = Outcome.failed ∧
    (∃ m, (processDay env w d).world.failureLog
      = w.failureLog ++ [failLine d env.now m]) ∧
    ∀ (envs : String → DayEnv) (w₀ : World) (dates : List String),
      (runBatch envs w₀ dates).1.completed = dates.length ∧
      (runBatch envs w₀ dates).1.successful + (runBatch envs w₀ dates).1.skipped +
        (runBatch envs w₀ dates).1.failed = dates.length := by
  obtain ⟨h1, h2⟩ := processDay_failed_shape env w d s hs
  exact ⟨h1, h2, fun envs w₀ dates => runBatch_counts envs w₀ dates⟩

theorem stage_error_logged_batch_continues_witness :
    (processDay envQF emptyWorld "20240504").outcome = Outcome.failed ∧
    (∃ m, (processDay envQF emptyWorld "20240504").world.failureLog
      = emptyWorld.failureLog ++ [failLine "20240504" envQF.now m]) ∧
    ∀ (envs : String → DayEnv) (w₀ : World) (dates : List String),
      (runBatch envs w₀ dates).1.completed = dates.length ∧
      (runBatch envs w₀ dates).1.successful + (runBatch envs w₀ dates).1.skipped +
        (runBatch envs w₀ dates).1.failed = dates.length :=
  stage_error_logged_batch_continues envQF emptyWorld "20240504" Stage.querying
    (by decide) (by decide)

theorem deleteBlobs_flag_shard (env : DayEnv) (blobs : List String) :
    ∀ (w : World) (tr : List RemoteOp), (deleteBlobs env blobs w tr).2.2 = true →
    (∀ x ∈ w.shardObjects, x ∈ blobs) →
    (deleteBlobs env blobs w tr).1.shardObjects = [] := by
  induction blobs with
  | nil =>
    intro w tr _ hsub
    exact List.eq_nil_iff_forall_not_mem.mpr (fun a ha => by cases hsub a ha)
  | cons b rest ih =>
    intro w tr hflag hsub
    simp only [deleteBlobs] at hflag ⊢
    by_cases hb : env.deleteBlobOk b = true
    · rw [if_pos hb] at hflag ⊢
      refine ih _ _ hflag ?_
      intro x hx
      have hm := List.mem_filter.mp hx
      have hxb : x ≠ b := by simpa using hm.2
      rcases List.mem_cons.mp (hsub x hm.1) with h | h
      · exact absurd h hxb
      · exact h
    · rw [if_neg hb] at hflag
      cases hflag

/-- An environment whose single-shard day succeeds up to cleanup, where
deleting the remote table fails. -/
def envCleanupFail : DayEnv :=
  { queryOk := true, exportOk := true, blobs := ["temp/gencast_20240505/000.csv"],
    blobContent := fun _ => ["h", "r1", "r2"], downloadOk := fun _ => true,
    deleteTableOk := false, deleteBlobOk := fun _ => true,
    now := "2024-05-05 11:00:00" }

/-- C6 counterexample: the merge ran to completion and the complete artifact
sits at the final path, yet an error while deleting the remote table during
cleanup makes `process_day` return "failed": a cleanup error does flip an
otherwise-successful day to Failed. -/
theorem cleanup_error_flips_outcome_cex :
    (processDay envCleanupFail emptyWorld "20240505").stage = some Stage.cleaningUp ∧
    lookupFile (processDay envCleanupFail emptyWorld "20240505").world
      (finalFile "20240505") = some ["h", "h", "r1", "r2"] ∧
    (processDay envCleanupFail emptyWorld "20240505").outcome = Outcome.failed := by
  decide

/-- C6 amended: an error raised during cleanup, after the merge has fully
written the final artifact, is caught by the generic day-level handler: the
outcome is Failed and one failure line is appended, while the merged artifact
remains at the final path. -/
theorem cleanup_error_yields_failed (env : DayEnv) (w : World) (d : String)
    (hs : (processDay env w d).stage = some Stage.cleaningUp) :
    (processDay env w d).outcome = Outcome.failed ∧
    (lookupFile (processDay env w d).world (finalFile d)).isSome = true ∧
    ∃ m, (processDay env w d).world.failureLog
      = w.failureLog ++ [failLine d env.now m] := by
  obtain ⟨h1, h2⟩ := processDay_failed_shape env w d Stage.cleaningUp hs
  refine ⟨h1, ?_, h2⟩
  rcases processDay_total_cases env w d with ⟨-, h⟩ | ⟨-, h⟩ | ⟨-, h⟩ | ⟨-, h⟩ | ⟨-, h⟩
    | ⟨-, h⟩ | ⟨-, h⟩ | ⟨-, h⟩ | ⟨-, h⟩ | ⟨-, h⟩
  · rw [h] at hs; cases hs
  · rw [h] at hs; simp [failDay] at hs
  · rw [h] at hs; simp [failDay] at hs
  · rw [h] at hs; simp [failDay] at hs
  · rw [h] at hs; simp [failDay] at hs
  · rw [h] at hs; simp [failDay] at hs
  · rw [h] at hs; simp [failDay] at hs
  · rw [h]
    rw [lookupFile_eq_of_localFiles _ (failDay_world_localFiles _ _ _ _ _ _)]
    unfold mergedWorld
    simp [lookupFile_writeFile_self]
  · rw [h]
    rw [lookupFile_eq_of_localFiles _ (failDay_world_localFiles _ _ _ _ _ _)]
    rw [lookupFile_eq_of_localFiles _ ((deleteBlobs_shape env env.blobs
      { mergedWorld env w d with tableExists := false }
      (dlTrace env ++ [RemoteOp.deleteTable])).1)]
    show (lookupFile (mergedWorld env w d) (finalFile d)).isSome = true
    unfold mergedWorld
    simp [lookupFile_writeFile_self]
  · rw [h] at hs; cases hs

theorem cleanup_error_yields_failed_witness :
    (processDay envCleanupFail emptyWorld "20240505").outcome = Outcome.failed ∧
    (lookupFile (processDay envCleanupFail emptyWorld "20240505").world
      (finalFile "20240505")).isSome = true ∧
    ∃ m, (processDay envCleanupFail emptyWorld "20240505").world.failureLog
      = emptyWorld.failureLog ++ [failLine "20240505" envCleanupFail.now m] :=
  cleanup_error_yields_failed envCleanupFail emptyWorld "20240505" (by decide)

/-- An environment in which the second of two shards fails to download, used
to exhibit the absent failure-path cleanup. -/
def envDl4 : DayEnv :=
  { queryOk := true, exportOk := true,
    blobs := ["temp/gencast_20240506/000.csv", "temp/gencast_20240506/001.csv"],
    blobContent := fun _ => ["h", "r"],
    downloadOk := fun b => b == "temp/gencast_20240506/000.csv",
    deleteTableOk := true, deleteBlobOk := fun _ => true,
    now := "2024-05-06 08:00:00" }

/-- C4 counterexample: a handled failure (one shard download failed) ends the
day with the remote table still materialized, both shard objects still in
object storage, the staged chunk still on disk, and no delete call in the
trace: cleanup is not attempted on this failure path, contradicting the
claimed unconditional deletion. -/
theorem no_cleanup_on_failure_cex :
    (processDay envDl4 emptyWorld "20240506").outcome = Outcome.failed ∧
    (processDay envDl4 emptyWorld "20240506").world.tableExists = true ∧
    (processDay envDl4 emptyWorld "20240506").world.shardObjects =
      ["temp/gencast_20240506/000.csv", "temp/gencast_20240506/001.csv"] ∧
    (lookupFile (processDay envDl4 emptyWorld "20240506").world
      "data/temp_20240506/000.csv").isSome = true ∧
    RemoteOp.deleteTable ∉ (processDay envDl4 emptyWorld "20240506").trace ∧
    RemoteOp.deleteBlob "temp/gencast_20240506/000.csv" ∉
      (processDay envDl4 emptyWorld "20240506").trace ∧
    RemoteOp.deleteBlob "temp/gencast_20240506/001.csv" ∉
      (processDay envDl4 emptyWorld "20240506").trace := by
  decide

/-- C4 amended: resource reclamation happens only on the success path: a day
that succeeds has deleted the remote table, every shard object and the
staging directory, while a day that fails in querying, exporting, downloading
or merging issues no delete call at all, leaving what was created in place. -/
theorem cleanup_only_on_success (env : DayEnv) (w : World) (d : String) :
    ((processDay env w d).outcome = Outcome.success →
      (processDay env w d).world.tableExists = false ∧
      (processDay env w d).world.shardObjects = [] ∧
      ∀ p ∈ (processDay env w d).world.localFiles.map Prod.fst,
        strStarts p (tempDir d ++ "/") = false) ∧
    ∀ s, (processDay env w d).stage = some s → s ≠ Stage.cleaningUp →
      RemoteOp.deleteTable ∉ (processDay env w d).trace ∧
      ∀ b, RemoteOp.deleteBlob b ∉ (processDay env w d).trace := by
  rcases processDay_total_cases env w d with ⟨hc, h⟩ | ⟨hc, h⟩ | ⟨hc, h⟩ | ⟨hc, h⟩
    | ⟨hc, h⟩ | ⟨hc, h⟩ | ⟨hc, h⟩ | ⟨hc, h⟩ | ⟨hc, h⟩ | ⟨hc, h⟩
  · constructor
    · intro hsucc; rw [h] at hsucc; simp at hsucc
    · intro s hsome _; rw [h] at hsome; cases hsome
  · constructor
    · intro hsucc; rw [h] at hsucc; simp [failDay] at hsucc
    · intro s hsome _
      rw [h]
      exact ⟨by simp [failDay], fun b => by simp [failDay]⟩
  · constructor
    · intro hsucc; rw [h] at hsucc; simp [failDay] at hsucc
    · intro s hsome _
      rw [h]
      exact ⟨by simp [failDay], fun b => by simp [failDay]⟩
  · constructor
    · intro hsucc; rw [h] at hsucc; simp [failDay] at hsucc
    · intro s hsome _
      rw [h]
      exact ⟨by simp [failDay], fun b => by simp [failDay]⟩
  · constructor
    · intro hsucc; rw [h] at hsucc; simp [failDay] at hsucc
    · intro s hsome _
      rw [h]
      exact ⟨by simp [failDay, dlTrace], fun b => by simp [failDay, dlTrace]⟩
  · constructor
    · intro hsucc; rw [h] at hsucc; simp [failDay] at hsucc
    · intro s hsome _
      rw [h]
      exact ⟨by simp [failDay, dlTrace], fun b => by simp [failDay, dlTrace]⟩
  · constructor
    · intro hsucc; rw [h] at hsucc; simp [failDay] at hsucc
    · intro s hsome _
      rw [h]
      exact ⟨by simp [failDay, dlTrace], fun b => by simp [failDay, dlTrace]⟩
  · constructor
    · intro hsucc; rw [h] at hsucc; simp [failDay] at hsucc
    · intro s hsome hne
      rw [h] at hsome
      simp only [failDay] at hsome
      injection hsome with h'
      exact absurd h'.symm hne
  · constructor
    · intro hsucc; rw [h] at hsucc; simp [failDay] at hsucc
    · intro s hsome hne
      rw [h] at hsome
      simp only [failDay] at hsome
      injection hsome with h'
      exact absurd h'.symm hne
  · constructor
    · intro _
      rw [h]
      refine ⟨?_, ?_, ?_⟩
      · exact (deleteBlobs_shape env env.blobs
          { mergedWorld env w d with tableExists := false }
          (dlTrace env ++ [RemoteOp.deleteTable])).2.1
      · refine deleteBlobs_flag_shard env env.blobs _ _ hc ?_
        intro x hx
        have hso : ({ mergedWorld env w d with
            tableExists := false } : World).shardObjects = env.blobs :=
          (mergedWorld_shape env w d).2.1
        rwa [hso] at hx
      · intro p hp
        simp only [rmtree, List.mem_map] at hp
        obtain ⟨e, he, rfl⟩ := hp
        have := (List.mem_filter.mp he).2
        simpa using this
    · intro s hsome _; rw [h] at hsome; cases hsome

theorem cleanup_only_on_success_witness :
    (processDay envAllOk emptyWorld "20240501").world.tableExists = false ∧
    (processDay envAllOk emptyWorld "20240501").world.shardObjects = [] ∧
    ∀ p ∈ (processDay envAllOk emptyWorld "20240501").world.localFiles.map Prod.fst,
      strStarts p (tempDir "20240501" ++ "/") = false :=
  (cleanup_only_on_success envAllOk emptyWorld "20240501").1 (by decide)

/-- One hundred lines: a header line followed by 99 data rows. -/
def chunk100 : List String := "hdr" :: List.replicate 99 "d"

/-- C1: the merge writes the pre-read header and then the full first chunk
(whose header `process_chunk` does not skip), so the first shard's header
appears twice: merging three 100-line shards yields 299 output lines with the
header occurring twice, not the claimed 298 lines with exactly one header. -/
theorem merge_duplicates_first_header :
    (combineChunks [chunk100, chunk100, chunk100]).2 = true ∧
    (combineChunks [chunk100, chunk100, chunk100]).1.length = 299 ∧
    (combineChunks [chunk100, chunk100, chunk100]).1.count "hdr" = 2 := by
  decide

/-- An environment whose second shard is an empty file, making the merge
raise `StopIteration` after the header and the first shard were already
written to the final artifact path. -/
def envMergeFail : DayEnv :=
  { queryOk := true, exportOk := true,
    blobs := ["temp/gencast_20240507/a.csv", "temp/gencast_20240507/b.csv"],
    blobContent := fun b =>
      if b == "temp/gencast_20240507/a.csv" then ["h", "r1"] else [],
    downloadOk := fun _ => true, deleteTableOk := true, deleteBlobOk := fun _ => true,
    now := "2024-05-07 07:00:00" }

/-- C2: the merge opens the final artifact path directly for writing (there is
no temporary output path and no rename): when the merge raises partway, a
partial file is left behind at the final artifact path. -/
theorem partial_artifact_left_at_final_path :
    (processDay envMergeFail emptyWorld "20240507").outcome = Outcome.failed ∧
    (processDay envMergeFail emptyWorld "20240507").stage = some Stage.merging ∧
    lookupFile (processDay envMergeFail emptyWorld "20240507").world
      (finalFile "20240507") = some ["h", "h", "r1"] := by
  decide

/-- C5: the retry policy modelled from the spec: a permanent error propagates
immediately with no retry; the per-attempt backoff delays are 1, 2, 4, 8, 16,
32 and then capped at 60 seconds; an always-transient failure is retried with
exactly those delays until the next sleep would pass the 600s deadline, at
which point the last error propagates. -/
theorem retry_policy_matches_spec :
    (∀ (E A : Type) (op : Nat → Except E A) (transient : E → Bool) (e : E),
      op 0 = Except.error e → transient e = false →
      retryExecute op transient = (Except.error e, [])) ∧
    (List.range 7).map backoffDelay = [1, 2, 4, 8, 16, 32, 60] ∧
    (∀ k, backoffDelay (k + 6) = 60) ∧
    retryExecute alwaysFail (fun _ => true) =
      (Except.error 14, [1, 2, 4, 8, 16, 32, 60, 60, 60, 60, 60, 60, 60, 60]) := by
  refine ⟨?_, by decide, ?_, rfl⟩
  · intro E A op transient e h1 h2
    exact retryGo_permanent op transient e 600 0 0 h1 h2
  · intro k
    have h26 : (2 : Nat) ^ 6 ≤ 2 ^ (k + 6) :=
      Nat.pow_le_pow_right (by norm_num) (by omega)
    have h64 : 60 ≤ 2 ^ (k + 6) := le_trans (by norm_num) h26
    simp [backoffDelay, min_eq_right h64]

theorem retry_policy_matches_spec_witness :
    retryExecute alwaysFail (fun _ => false) = (Except.error 0, []) :=
  retry_policy_matches_spec.1 Nat Unit alwaysFail (fun _ => false) 0 rfl rfl

end DownloadData
